import Mathlib

/-!
Verification development for the `create-next-elysia` scaffolding CLI
(`src/index.ts`).  The program is a single linear workflow: it collects a few
interactive answers, clones a fixed template repository, optionally runs three
dependency installs, and optionally rewrites the clone's git remotes and
`.gitmodules` before pushing.

We embed the workflow shallowly: all interactive answers and the exit codes of
every spawned subprocess are collected in an `Env`; the workflow itself becomes
a pure function `run : Env → RunResult` producing the ordered list of
observable events (subprocess spawns, file writes, directory creation, console
messages) together with the process exit code, mirroring the control flow of
`main` in `src/index.ts` statement by statement.  The file `src/index.ts`
contains two near-duplicate variants of the script; the embedding follows the
first (primary) variant, which is the one containing the repository-rewrite
stage that the claims reference.
-/

namespace CreateNextElysia

/-- An observable event of one workflow execution: a spawned subprocess
(with its command vector, optional working directory, and exit code), a spawn
that threw before producing an exit code, a file write, a directory creation,
or a console message (`log` for `console.log`, `logError` for
`console.error`). -/
inductive Event where
  | spawn (cmd : List String) (cwd : Option String) (exitCode : Nat)
  | spawnThrew (cmd : List String) (cwd : Option String)
  | writeFile (filePath : String) (content : String)
  | mkdir (dirPath : String)
  | log (msg : String)
  | logError (msg : String)
  deriving Repr, DecidableEq

/-- The environment of one run: the positional argument, every interactive
answer, whether the resolved project path already exists, the exit code of
every subprocess the script can spawn, and whether the `.gitmodules` write
throws.  `resolve` stands for `path.resolve`, an external function of the
filesystem layer. -/
structure Env where
  argv2 : Option String
  nameAnswer : String
  pmAnswer : String
  installAnswer : String
  setupAnswer : String
  rootRepo : String
  backendRepo : String
  frontendRepo : String
  resolve : String → String
  pathExists : Bool
  cloneExit : Nat
  rootInstall : Option Nat
  backendInstall : Option Nat
  frontendInstall : Option Nat
  gitmodulesWriteThrows : Bool
  syncExit : Nat
  backendSetUrlExit : Nat
  frontendSetUrlExit : Nat
  rootSetUrlExit : Nat
  addExit : Nat
  commitExit : Nat
  backendPushExit : Nat
  frontendPushExit : Nat
  rootPushExit : Nat

/-- Result of a run: the event trace and the process exit code. -/
structure RunResult where
  trace : List Event
  exitCode : Nat
  deriving Repr, DecidableEq

/-- The fixed template repository URL (`src/index.ts` line 75). -/
def templateUrl : String := "https://github.com/XAN44/next-elysia.git"

/-- `path.join a b` for the forward-slash paths used by the script. -/
def joinPath (a b : String) : String := a ++ "/" ++ b

/-- JavaScript's `String.prototype.toLowerCase` for the answers the script
compares (ASCII `yes`/`no` literals): per-character lowercasing. -/
def toLowerStr (s : String) : String := String.mk (s.data.map Char.toLower)

/-- Package-manager selection (`src/index.ts` lines 40-47): `"2"` → npm,
`"3"` → yarn, anything else keeps the default `"bun"`. -/
def selectPackageManager (pmChoice : String) : String :=
  if pmChoice = "2" then "npm" else if pmChoice = "3" then "yarn" else "bun"

/-- Install-now resolution (`src/index.ts` line 53):
`installNow.toLowerCase() !== "no"`. -/
def shouldInstallOf (installNow : String) : Bool :=
  toLowerStr installNow ≠ "no"

/-- Repository-rewrite opt-in (`src/index.ts` line 207):
`setupNewRepos.toLowerCase() === "yes"`. -/
def setupReposOf (answer : String) : Bool :=
  toLowerStr answer = "yes"

/-- Project-name resolution (`src/index.ts` lines 26-32): the positional
argument if non-empty, else the prompt answer, else the fixed default. -/
def projectNameOf (e : Env) : String :=
  match e.argv2 with
  | some n =>
      if n = "" then
        (if e.nameAnswer = "" then "my-next-elysia-app" else e.nameAnswer)
      else n
  | none => if e.nameAnswer = "" then "my-next-elysia-app" else e.nameAnswer

/-- `path.resolve(projectName)` (`src/index.ts` line 58). -/
def projectPathOf (e : Env) : String := e.resolve (projectNameOf e)

/-- `path.join(projectPath, "back-end/app")`. -/
def backendPathOf (e : Env) : String := joinPath (projectPathOf e) "back-end/app"

/-- `path.join(projectPath, "front-end/my-app")`. -/
def frontendPathOf (e : Env) : String := joinPath (projectPathOf e) "front-end/my-app"

/-- The `.gitmodules` content template (`src/index.ts` lines 228-234). -/
def gitmodulesContent (backendRepo frontendRepo : String) : String :=
  "[submodule \"back-end/app\"]\n\tpath = back-end/app\n\turl = " ++ backendRepo ++
  "\n[submodule \"front-end/my-app\"]\n\tpath = front-end/my-app\n\turl = " ++
  frontendRepo ++ "\n"

/-- Console output before the collision check (`src/index.ts` lines 22-55). -/
def headerTrace : List Event :=
  [Event.log "\n✨ Welcome to create-next-elysia!\n",
   Event.log "Creating your Next.js + Elysia.js fullstack project...\n",
   Event.log "\n📦 Select package manager:",
   Event.log "1. bun (recommended)",
   Event.log "2. npm",
   Event.log "3. yarn",
   Event.log "\n📥 Setting up project...\n"]

/-- The clone command vector (`src/index.ts` lines 71-77). -/
def cloneCmdOf (e : Env) : List String :=
  ["git", "clone", "--recurse-submodules", templateUrl, projectPathOf e]

/-- Directory creation, clone announcement, and the clone spawn
(`src/index.ts` lines 65-81). -/
def cloneTrace (e : Env) : List Event :=
  [Event.mkdir (projectPathOf e),
   Event.log "📦 Cloning root repository with submodules...",
   Event.spawn (cloneCmdOf e) none e.cloneExit]

/-- The diagnostic checklist printed when the clone fails
(`src/index.ts` lines 86-91). -/
def cloneDiagTrace : List Event :=
  [Event.logError "❌ Failed to clone repository",
   Event.logError "Error details:",
   Event.logError "\nMake sure:",
   Event.logError "1. Git is installed (run: git --version)",
   Event.logError "2. You have internet connection",
   Event.logError "3. Repository URL is accessible"]

/-- One `try { spawn([cmd, "install"], cwd); … } catch { … }` block
(`src/index.ts` lines 105-122 and its two sibling blocks): on a normal exit
the spawn event is followed by the success message or the failure report; a
throw is followed by the catch-block report. -/
def installBlock (cmdStr cwd : String) (result : Option Nat)
    (okMsg : String) (failLines : List Event) (catchLines : List Event) :
    List Event :=
  match result with
  | some c =>
      Event.spawn [cmdStr, "install"] (some cwd) c ::
        (if c ≠ 0 then failLines else [Event.log okMsg])
  | none => Event.spawnThrew [cmdStr, "install"] (some cwd) :: catchLines

/-- `const cmd = packageManager === "npm" ? "npm" : packageManager`
(`src/index.ts` line 101). -/
def cmdOf (e : Env) : String :=
  let pm := selectPackageManager e.pmAnswer
  if pm = "npm" then "npm" else pm

/-- The conditional install stage (`src/index.ts` lines 97-175): when
install-now holds, the three installs run strictly in the order root,
`back-end/app`, `front-end/my-app`, each with its own failure report. -/
def installStageTrace (e : Env) : List Event :=
  if shouldInstallOf e.installAnswer then
    let packageManager := selectPackageManager e.pmAnswer
    let cmd := cmdOf e
    let projectName := projectNameOf e
    [Event.log ("📚 Installing dependencies with " ++ packageManager ++ "...\n"),
     Event.log "📦 Installing root dependencies..."] ++
    installBlock cmd (projectPathOf e) e.rootInstall
      "✅ Root dependencies installed!\n"
      [Event.logError "❌ Root install failed. Please run manually:",
       Event.logError ("   cd " ++ projectName ++ " && " ++ cmd ++ " install")]
      [Event.logError "❌ Could not install root dependencies:",
       Event.log ("Please run manually: cd " ++ projectName ++ " && " ++ cmd ++ " install")] ++
    [Event.log "📦 Installing backend dependencies..."] ++
    installBlock cmd (backendPathOf e) e.backendInstall
      "✅ Backend dependencies installed!\n"
      [Event.logError "❌ Backend install failed. Please run manually:",
       Event.logError ("   cd " ++ projectName ++ "/back-end/app && " ++ cmd ++ " install")]
      [Event.logError "❌ Could not install backend dependencies:",
       Event.log ("Please run manually: cd " ++ projectName ++ "/back-end/app && " ++ cmd ++ " install")] ++
    [Event.log "📦 Installing frontend dependencies..."] ++
    installBlock cmd (frontendPathOf e) e.frontendInstall
      "✅ Frontend dependencies installed!\n"
      [Event.logError "❌ Frontend install failed. Please run manually:",
       Event.logError ("   cd " ++ projectName ++ "/front-end/my-app && " ++ cmd ++ " install")]
      [Event.logError "❌ Could not install frontend dependencies:",
       Event.log ("Please run manually: cd " ++ projectName ++ "/front-end/my-app && " ++ cmd ++ " install")]
  else []

/-- The fixed success summary (`src/index.ts` lines 178-200), with the manual
install instructions only when install-now was declined. -/
def summaryTrace (e : Env) : List Event :=
  let packageManager := selectPackageManager e.pmAnswer
  [Event.log "\n🎉 Project created successfully!\n",
   Event.log ("📁 Project location: " ++ projectPathOf e ++ "\n"),
   Event.log "📖 Next steps:\n",
   Event.log ("1. cd " ++ projectNameOf e ++ "\n")] ++
  (if !(shouldInstallOf e.installAnswer) then
     [Event.log "2. Install dependencies:\n",
      Event.log "   # For backend:",
      Event.log ("   cd back-end/app && " ++ packageManager ++ " install && cd ../..\n"),
      Event.log "   # For frontend:",
      Event.log ("   cd front-end/my-app && " ++ packageManager ++ " install\n")]
   else []) ++
  [Event.log "3. Start development servers:\n",
   Event.log "   # Terminal 1 - Backend:",
   Event.log ("   cd back-end/app && " ++ packageManager ++ " run dev\n"),
   Event.log "   # Terminal 2 - Frontend:",
   Event.log ("   cd front-end/my-app && " ++ packageManager ++ " run dev\n"),
   Event.log "📚 For more info, check the README.md in your project\n"]

/-- `if (x === 0) console.log(ok) else console.log(bad)` — the status note
after the commit and after each push (`src/index.ts` lines 294-298, 308-312,
321-325, 335-339). -/
def statusNote (code : Nat) (okMsg badMsg : String) : List Event :=
  if code = 0 then [Event.log okMsg] else [Event.log badMsg]

/-- The body of the repository-rewrite `try` block when the `.gitmodules`
write succeeds (`src/index.ts` lines 224-348): write the file, sync
submodules, set the backend, frontend and root remotes (in that source
order), stage and commit `.gitmodules` in the root, then push backend,
frontend and root to branch `main`; no exit code in this stage is checked
except to choose a status message after the commit and the pushes. -/
def rewriteBody (e : Env) : List Event :=
  let projectPath := projectPathOf e
  let backendPath := backendPathOf e
  let frontendPath := frontendPathOf e
  [Event.log "\n📝 Updating .gitmodules file...",
   Event.writeFile (joinPath projectPath ".gitmodules")
     (gitmodulesContent e.backendRepo e.frontendRepo),
   Event.log "✅ .gitmodules updated with new URLs",
   Event.log "\n🔄 Syncing submodule configurations...",
   Event.spawn ["git", "submodule", "sync", "--recursive"] (some projectPath) e.syncExit,
   Event.log "✅ Submodule configurations synced",
   Event.log "\n📝 Updating backend remote...",
   Event.spawn ["git", "remote", "set-url", "origin", e.backendRepo] (some backendPath)
     e.backendSetUrlExit,
   Event.log "✅ Backend remote updated",
   Event.log "\n📝 Updating frontend remote...",
   Event.spawn ["git", "remote", "set-url", "origin", e.frontendRepo] (some frontendPath)
     e.frontendSetUrlExit,
   Event.log "✅ Frontend remote updated",
   Event.log "\n📝 Updating root remote...",
   Event.spawn ["git", "remote", "set-url", "origin", e.rootRepo] (some projectPath)
     e.rootSetUrlExit,
   Event.log "✅ Root remote updated",
   Event.log "\n💾 Staging changes in root...",
   Event.spawn ["git", "add", ".gitmodules"] (some projectPath) e.addExit,
   Event.log "💾 Committing changes...",
   Event.spawn ["git", "commit", "-m", "Update submodule URLs to new repositories"]
     (some projectPath) e.commitExit] ++
  statusNote e.commitExit "✅ Changes committed"
    "ℹ️  No changes to commit (or commit failed)" ++
  [Event.log "\n📤 Pushing backend...",
   Event.spawn ["git", "push", "-u", "origin", "main"] (some backendPath) e.backendPushExit] ++
  statusNote e.backendPushExit "✅ Backend pushed successfully"
    "⚠️  Backend push had issues (might be up-to-date)" ++
  [Event.log "\n📤 Pushing frontend...",
   Event.spawn ["git", "push", "-u", "origin", "main"] (some frontendPath) e.frontendPushExit] ++
  statusNote e.frontendPushExit "✅ Frontend pushed successfully"
    "⚠️  Frontend push had issues (might be up-to-date)" ++
  [Event.log "\n📤 Pushing root repository...",
   Event.spawn ["git", "push", "-u", "origin", "main"] (some projectPath) e.rootPushExit] ++
  statusNote e.rootPushExit "✅ Root pushed successfully"
    "⚠️  Root push had issues (might be up-to-date)" ++
  [Event.log "\n✅ All repositories updated successfully!\n",
   Event.log "🔗 Your project repositories:",
   Event.log ("  Root: " ++ e.rootRepo),
   Event.log ("  Backend: " ++ e.backendRepo),
   Event.log ("  Frontend: " ++ e.frontendRepo ++ "\n"),
   Event.log "✨ Submodules are now configured to use your new repositories!\n"]

/-- The conditional repository-rewrite stage (`src/index.ts` lines 203-355):
entered only when the answer lowercased equals `"yes"`; the whole stage is one
`try`/`catch`, so a throwing `.gitmodules` write skips every remaining
operation and lands in the catch block, which only prints. -/
def rewriteTrace (e : Env) : List Event :=
  if setupReposOf e.setupAnswer then
    Event.log "\n📦 Setting up new GitHub repositories...\n" ::
    (if e.gitmodulesWriteThrows then
       [Event.log "\n📝 Updating .gitmodules file...",
        Event.logError "❌ Error updating repositories:",
        Event.log "\nPlease update repositories manually or check the documentation."]
     else rewriteBody e)
  else []

/-- The whole workflow (`main` in `src/index.ts`, first variant): the
collision check terminates with exit 1 before any spawn; a failing clone
terminates with exit 1 after the diagnostic checklist; otherwise the run
proceeds through the install stage, the summary, the optional rewrite stage
and the closing message, and exits 0. -/
def run (e : Env) : RunResult :=
  if e.pathExists then
    { trace := headerTrace ++
        [Event.logError ("❌ Directory \"" ++ projectNameOf e ++ "\" already exists!")],
      exitCode := 1 }
  else if e.cloneExit ≠ 0 then
    { trace := headerTrace ++ cloneTrace e ++ cloneDiagTrace, exitCode := 1 }
  else
    { trace := headerTrace ++ cloneTrace e ++
        [Event.log "✅ Repository cloned successfully!\n"] ++
        installStageTrace e ++ summaryTrace e ++ rewriteTrace e ++
        [Event.log "🚀 Happy coding!\n"],
      exitCode := 0 }

/-- Abstract view of one repository-level operation appearing in a trace:
the template clone, the `.gitmodules` write, and the git invocations of the
rewrite stage. -/
inductive GitOp where
  | cloneRepo (url dest : String)
  | writeGitmodules (filePath : String)
  | syncSubmodules (cwd : Option String)
  | setUrl (url : String) (cwd : Option String)
  | addGitmodules (cwd : Option String)
  | commitCfg (cwd : Option String)
  | pushMain (branch : String) (cwd : Option String)
  deriving Repr, DecidableEq

/-- Classify a spawned command vector as a git operation.  Install commands
always have exactly two components, so they are dismissed by the length test
before any string comparison. -/
def gitOpOfCmd (cmd : List String) (cwd : Option String) : Option GitOp :=
  if cmd.length = 2 then none
  else
    match cmd with
    | ["git", "clone", "--recurse-submodules", url, dest] => some (GitOp.cloneRepo url dest)
    | ["git", "submodule", "sync", "--recursive"] => some (GitOp.syncSubmodules cwd)
    | ["git", "remote", "set-url", "origin", u] => some (GitOp.setUrl u cwd)
    | ["git", "add", ".gitmodules"] => some (GitOp.addGitmodules cwd)
    | ["git", "commit", "-m", _] => some (GitOp.commitCfg cwd)
    | ["git", "push", "-u", "origin", b] => some (GitOp.pushMain b cwd)
    | _ => none

/-- The git operation (or `.gitmodules` write) denoted by one event, if any. -/
def opOf (ev : Event) : Option GitOp :=
  match ev with
  | Event.writeFile p _ => some (GitOp.writeGitmodules p)
  | Event.spawn cmd cwd _ => gitOpOfCmd cmd cwd
  | _ => none

/-- The sequence of repository-level operations of a trace, in order. -/
def opsOf (tr : List Event) : List GitOp := tr.filterMap opOf

/-- The command name and working directory of an install spawn (a spawn of
`[cmd, "install"]` with a working directory), if the event is one. -/
def installSpawnInfo (ev : Event) : Option (String × String) :=
  match ev with
  | Event.spawn [c, "install"] (some d) _ => some (c, d)
  | Event.spawnThrew [c, "install"] (some d) => some (c, d)
  | _ => none

/-- The install spawns of a trace (command name and working directory),
in order. -/
def installSpawns (tr : List Event) : List (String × String) :=
  tr.filterMap installSpawnInfo

/-- The working directories of the install spawns of a trace, in order. -/
def installDirs (tr : List Event) : List String :=
  (installSpawns tr).map Prod.snd

/-- The command names of the install spawns of a trace, in order. -/
def installCmds (tr : List Event) : List String :=
  (installSpawns tr).map Prod.fst

/-- The URLs passed to `git remote set-url origin` in a trace, in order. -/
def setUrlUrls (tr : List Event) : List String :=
  (opsOf tr).filterMap fun op =>
    match op with
    | GitOp.setUrl u _ => some u
    | _ => none

/-- The subprocess events (successful spawns and throwing spawn attempts) of
a trace, in order. -/
def spawnEvents (tr : List Event) : List Event :=
  tr.filter fun ev =>
    match ev with
    | Event.spawn _ _ _ => true
    | Event.spawnThrew _ _ => true
    | _ => false

/-- Whether the string `s` starts with `p` (character-wise). -/
def strStartsWith (s p : String) : Bool :=
  s.data.take p.data.length = p.data

/-- Whether an event is a warning or error message: anything printed via
`console.error`, or a `console.log` line starting with the warning or info
marker. -/
def isWarnLog (ev : Event) : Bool :=
  match ev with
  | Event.logError _ => true
  | Event.log m => strStartsWith m "⚠️" || strStartsWith m "ℹ️"
  | _ => false

/-- The expected operation sequence of the rewrite stage, as the code performs
it: the `.gitmodules` write, the submodule sync, the three `set-url`
operations (backend, frontend, root), staging and committing in the root, and
the three pushes to `main` (backend, frontend, root). -/
def rewriteOps (e : Env) : List GitOp :=
  [GitOp.writeGitmodules (joinPath (projectPathOf e) ".gitmodules"),
   GitOp.syncSubmodules (some (projectPathOf e)),
   GitOp.setUrl e.backendRepo (some (backendPathOf e)),
   GitOp.setUrl e.frontendRepo (some (frontendPathOf e)),
   GitOp.setUrl e.rootRepo (some (projectPathOf e)),
   GitOp.addGitmodules (some (projectPathOf e)),
   GitOp.commitCfg (some (projectPathOf e)),
   GitOp.pushMain "main" (some (backendPathOf e)),
   GitOp.pushMain "main" (some (frontendPathOf e)),
   GitOp.pushMain "main" (some (projectPathOf e))]

/-- One `.gitmodules` submodule stanza as the specification describes it:
a `[submodule "<path>"]` header followed by tab-indented `path` and `url`
lines.  This definition follows the specification's words; it is compared
against `gitmodulesContent`, which is the template taken from the source. -/
def specSubmoduleStanza (p u : String) : String :=
  "[submodule \"" ++ p ++ "\"]\n" ++ "\tpath = " ++ p ++ "\n" ++
  "\turl = " ++ u ++ "\n"

/-! ### Computation lemmas for the projections -/

@[simp] theorem opsOf_nil : opsOf [] = [] := rfl

@[simp] theorem opsOf_append (a b : List Event) :
    opsOf (a ++ b) = opsOf a ++ opsOf b :=
  List.filterMap_append a b opOf

@[simp] theorem opOf_log (m : String) : opOf (Event.log m) = none := rfl

@[simp] theorem opOf_logError (m : String) : opOf (Event.logError m) = none := rfl

@[simp] theorem opOf_mkdir (p : String) : opOf (Event.mkdir p) = none := rfl

@[simp] theorem opOf_writeFile (p s : String) :
    opOf (Event.writeFile p s) = some (GitOp.writeGitmodules p) := rfl

@[simp] theorem opOf_installSpawn (s : String) (d : Option String) (c : Nat) :
    opOf (Event.spawn [s, "install"] d c) = none := rfl

@[simp] theorem opOf_installThrew (s : String) (d : Option String) :
    opOf (Event.spawnThrew [s, "install"] d) = none := rfl

@[simp] theorem opOf_clone (u pp : String) (d : Option String) (c : Nat) :
    opOf (Event.spawn ["git", "clone", "--recurse-submodules", u, pp] d c)
      = some (GitOp.cloneRepo u pp) := rfl

@[simp] theorem opOf_sync (d : Option String) (c : Nat) :
    opOf (Event.spawn ["git", "submodule", "sync", "--recursive"] d c)
      = some (GitOp.syncSubmodules d) := rfl

@[simp] theorem opOf_setUrl (u : String) (d : Option String) (c : Nat) :
    opOf (Event.spawn ["git", "remote", "set-url", "origin", u] d c)
      = some (GitOp.setUrl u d) := rfl

@[simp] theorem opOf_add (d : Option String) (c : Nat) :
    opOf (Event.spawn ["git", "add", ".gitmodules"] d c)
      = some (GitOp.addGitmodules d) := rfl

@[simp] theorem opOf_commit (m : String) (d : Option String) (c : Nat) :
    opOf (Event.spawn ["git", "commit", "-m", m] d c)
      = some (GitOp.commitCfg d) := rfl

@[simp] theorem opOf_push (b : String) (d : Option String) (c : Nat) :
    opOf (Event.spawn ["git", "push", "-u", "origin", b] d c)
      = some (GitOp.pushMain b d) := rfl

@[simp] theorem installSpawns_nil : installSpawns [] = [] := rfl

@[simp] theorem installSpawns_append (a b : List Event) :
    installSpawns (a ++ b) = installSpawns a ++ installSpawns b :=
  List.filterMap_append a b installSpawnInfo

@[simp] theorem instInfo_log (m : String) : installSpawnInfo (Event.log m) = none := rfl

@[simp] theorem instInfo_logError (m : String) :
    installSpawnInfo (Event.logError m) = none := rfl

@[simp] theorem instInfo_mkdir (p : String) :
    installSpawnInfo (Event.mkdir p) = none := rfl

@[simp] theorem instInfo_writeFile (p s : String) :
    installSpawnInfo (Event.writeFile p s) = none := rfl

@[simp] theorem instInfo_installSpawn (s d : String) (c : Nat) :
    installSpawnInfo (Event.spawn [s, "install"] (some d) c) = some (s, d) := rfl

@[simp] theorem instInfo_installThrew (s d : String) :
    installSpawnInfo (Event.spawnThrew [s, "install"] (some d)) = some (s, d) := rfl

@[simp] theorem instInfo_clone (u pp : String) (d : Option String) (c : Nat) :
    installSpawnInfo (Event.spawn ["git", "clone", "--recurse-submodules", u, pp] d c)
      = none := rfl

@[simp] theorem instInfo_sync (d : Option String) (c : Nat) :
    installSpawnInfo (Event.spawn ["git", "submodule", "sync", "--recursive"] d c)
      = none := rfl

@[simp] theorem instInfo_setUrl (u : String) (d : Option String) (c : Nat) :
    installSpawnInfo (Event.spawn ["git", "remote", "set-url", "origin", u] d c)
      = none := rfl

@[simp] theorem instInfo_add (d : Option String) (c : Nat) :
    installSpawnInfo (Event.spawn ["git", "add", ".gitmodules"] d c) = none := rfl

@[simp] theorem instInfo_commit (m : String) (d : Option String) (c : Nat) :
    installSpawnInfo (Event.spawn ["git", "commit", "-m", m] d c) = none := rfl

@[simp] theorem instInfo_push (b : String) (d : Option String) (c : Nat) :
    installSpawnInfo (Event.spawn ["git", "push", "-u", "origin", b] d c) = none := rfl

@[simp] theorem opsOf_statusNote (c : Nat) (a b : String) :
    opsOf (statusNote c a b) = [] := by
  unfold statusNote; split <;> rfl

@[simp] theorem installSpawns_statusNote (c : Nat) (a b : String) :
    installSpawns (statusNote c a b) = [] := by
  unfold statusNote; split <;> rfl

theorem opsOf_headerTrace : opsOf headerTrace = [] := rfl

theorem opsOf_cloneTrace (e : Env) :
    opsOf (cloneTrace e) = [GitOp.cloneRepo templateUrl (projectPathOf e)] := rfl

theorem opsOf_cloneDiagTrace : opsOf cloneDiagTrace = [] := rfl

theorem opsOf_installBlock (cmdStr cwd : String) (result : Option Nat)
    (okMsg : String) (failLines catchLines : List Event)
    (hf : opsOf failLines = []) (hc : opsOf catchLines = []) :
    opsOf (installBlock cmdStr cwd result okMsg failLines catchLines) = [] := by
  cases result with
  | some c =>
      by_cases h : c = 0
      · simp [installBlock, h, opsOf, List.filterMap_cons]
      · simp [installBlock, h, opsOf, List.filterMap_cons]
        simpa [opsOf] using hf
  | none => simpa [installBlock, opsOf, List.filterMap_cons] using hc

theorem opsOf_installStage (e : Env) : opsOf (installStageTrace e) = [] := by
  cases h : shouldInstallOf e.installAnswer with
  | false => simp [installStageTrace, h]
  | true =>
      simp only [installStageTrace, h, if_true, opsOf_append]
      rw [opsOf_installBlock, opsOf_installBlock, opsOf_installBlock]
      all_goals simp [opsOf]

theorem opsOf_summary (e : Env) : opsOf (summaryTrace e) = [] := by
  cases h : shouldInstallOf e.installAnswer <;> simp [summaryTrace, h, opsOf]

theorem opsOf_rewriteBody (e : Env) : opsOf (rewriteBody e) = rewriteOps e := by
  by_cases h1 : e.commitExit = 0 <;> by_cases h2 : e.backendPushExit = 0 <;>
    by_cases h3 : e.frontendPushExit = 0 <;> by_cases h4 : e.rootPushExit = 0 <;>
    simp [rewriteBody, rewriteOps, statusNote, h1, h2, h3, h4, opsOf,
      List.filterMap_cons]

theorem opsOf_rewriteTrace (e : Env) :
    opsOf (rewriteTrace e) =
      if setupReposOf e.setupAnswer then
        (if e.gitmodulesWriteThrows then [] else rewriteOps e)
      else [] := by
  cases h : setupReposOf e.setupAnswer with
  | false => simp [rewriteTrace, h]
  | true =>
      cases hw : e.gitmodulesWriteThrows with
      | false =>
          simp only [rewriteTrace, h, hw, if_true, if_false, Bool.false_eq_true]
          simpa [opsOf, List.filterMap_cons] using opsOf_rewriteBody e
      | true => simp [rewriteTrace, h, hw, opsOf]

theorem installSpawns_headerTrace : installSpawns headerTrace = [] := rfl

theorem installSpawns_cloneTrace (e : Env) : installSpawns (cloneTrace e) = [] := rfl

theorem installSpawns_cloneDiagTrace : installSpawns cloneDiagTrace = [] := rfl

theorem installSpawns_installBlock (cmdStr cwd : String) (result : Option Nat)
    (okMsg : String) (failLines catchLines : List Event)
    (hf : installSpawns failLines = []) (hc : installSpawns catchLines = []) :
    installSpawns (installBlock cmdStr cwd result okMsg failLines catchLines)
      = [(cmdStr, cwd)] := by
  cases result with
  | some c =>
      by_cases h : c = 0
      · simp [installBlock, h, installSpawns, List.filterMap_cons]
      · simp [installBlock, h, installSpawns, List.filterMap_cons]
        simpa [installSpawns] using hf
  | none => simpa [installBlock, installSpawns, List.filterMap_cons] using hc

theorem installSpawns_installStage (e : Env) :
    installSpawns (installStageTrace e) =
      if shouldInstallOf e.installAnswer then
        [(cmdOf e, projectPathOf e), (cmdOf e, backendPathOf e),
         (cmdOf e, frontendPathOf e)]
      else [] := by
  cases h : shouldInstallOf e.installAnswer with
  | false => simp [installStageTrace, h]
  | true =>
      simp only [installStageTrace, h, if_true, if_false, installSpawns_append]
      rw [installSpawns_installBlock, installSpawns_installBlock,
        installSpawns_installBlock]
      all_goals simp [installSpawns]

theorem installSpawns_summary (e : Env) : installSpawns (summaryTrace e) = [] := by
  cases h : shouldInstallOf e.installAnswer <;>
    simp [summaryTrace, h, installSpawns]

theorem installSpawns_rewriteBody (e : Env) : installSpawns (rewriteBody e) = [] := by
  by_cases h1 : e.commitExit = 0 <;> by_cases h2 : e.backendPushExit = 0 <;>
    by_cases h3 : e.frontendPushExit = 0 <;> by_cases h4 : e.rootPushExit = 0 <;>
    simp [rewriteBody, statusNote, h1, h2, h3, h4, installSpawns,
      List.filterMap_cons]

theorem installSpawns_rewriteTrace (e : Env) :
    installSpawns (rewriteTrace e) = [] := by
  cases h : setupReposOf e.setupAnswer with
  | false => simp [rewriteTrace, h]
  | true =>
      cases hw : e.gitmodulesWriteThrows with
      | false =>
          simp only [rewriteTrace, h, hw, if_true, if_false, Bool.false_eq_true]
          simpa [installSpawns, List.filterMap_cons] using installSpawns_rewriteBody e
      | true => simp [rewriteTrace, h, hw, installSpawns]

/-! ### Run-level computation lemmas -/

theorem run_collision (e : Env) (h : e.pathExists = true) :
    run e = RunResult.mk (headerTrace ++
        [Event.logError ("❌ Directory \"" ++ projectNameOf e ++ "\" already exists!")])
      1 := by
  simp [run, h]

theorem run_cloneFail (e : Env) (h1 : e.pathExists = false) (h2 : e.cloneExit ≠ 0) :
    run e = RunResult.mk (headerTrace ++ cloneTrace e ++ cloneDiagTrace) 1 := by
  simp [run, h1, h2]

theorem run_success (e : Env) (h1 : e.pathExists = false) (h2 : e.cloneExit = 0) :
    run e = RunResult.mk (headerTrace ++ cloneTrace e ++
        [Event.log "✅ Repository cloned successfully!\n"] ++
        installStageTrace e ++ summaryTrace e ++ rewriteTrace e ++
        [Event.log "🚀 Happy coding!\n"])
      0 := by
  simp [run, h1, h2]

theorem opsOf_run_success (e : Env) (h1 : e.pathExists = false)
    (h2 : e.cloneExit = 0) :
    opsOf (run e).trace =
      GitOp.cloneRepo templateUrl (projectPathOf e) :: opsOf (rewriteTrace e) := by
  rw [run_success e h1 h2]
  simp only [opsOf_append]
  rw [opsOf_headerTrace, opsOf_cloneTrace, opsOf_installStage, opsOf_summary]
  simp [opsOf]

theorem installSpawns_run_success (e : Env) (h1 : e.pathExists = false)
    (h2 : e.cloneExit = 0) :
    installSpawns (run e).trace =
      if shouldInstallOf e.installAnswer then
        [(cmdOf e, projectPathOf e), (cmdOf e, backendPathOf e),
         (cmdOf e, frontendPathOf e)]
      else [] := by
  rw [run_success e h1 h2]
  simp only [installSpawns_append]
  rw [installSpawns_headerTrace, installSpawns_cloneTrace,
    installSpawns_installStage, installSpawns_summary, installSpawns_rewriteTrace]
  cases h : shouldInstallOf e.installAnswer <;> simp [h, installSpawns]

theorem mem_run_of_mem_rewrite (e : Env) (h1 : e.pathExists = false)
    (h2 : e.cloneExit = 0) (x : Event) (hx : x ∈ rewriteTrace e) :
    x ∈ (run e).trace := by
  rw [run_success e h1 h2]
  simp only [List.append_assoc, List.mem_append]
  tauto

theorem mem_run_of_mem_install (e : Env) (h1 : e.pathExists = false)
    (h2 : e.cloneExit = 0) (x : Event) (hx : x ∈ installStageTrace e) :
    x ∈ (run e).trace := by
  rw [run_success e h1 h2]
  simp only [List.append_assoc, List.mem_append]
  tauto

/-- The `.gitmodules` template from the source splits into exactly the two
submodule stanzas the specification describes, carrying the backend URL in
the first and the frontend URL in the second. -/
theorem gitmodulesContent_eq_stanzas (b f : String) :
    gitmodulesContent b f =
      specSubmoduleStanza "back-end/app" b ++
      specSubmoduleStanza "front-end/my-app" f := by
  apply String.ext
  simp [gitmodulesContent, specSubmoduleStanza, String.data_append,
    List.append_assoc]

/-! ### Concrete environments used as witnesses and counterexamples -/

/-- A fully successful interactive session: positional name `demo`, default
package manager and install choice, rewrite stage accepted, every subprocess
exiting 0. -/
def demoEnv : Env where
  argv2 := some "demo"
  nameAnswer := ""
  pmAnswer := ""
  installAnswer := ""
  setupAnswer := "yes"
  rootRepo := "https://github.com/user/root.git"
  backendRepo := "https://github.com/user/backend.git"
  frontendRepo := "https://github.com/user/frontend.git"
  resolve := fun n => "/home/user/" ++ n
  pathExists := false
  cloneExit := 0
  rootInstall := some 0
  backendInstall := some 0
  frontendInstall := some 0
  gitmodulesWriteThrows := false
  syncExit := 0
  backendSetUrlExit := 0
  frontendSetUrlExit := 0
  rootSetUrlExit := 0
  addExit := 0
  commitExit := 0
  backendPushExit := 0
  frontendPushExit := 0
  rootPushExit := 0

/-- `demoEnv`, but the submodule sync exits non-zero. -/
def syncFailEnv : Env := { demoEnv with syncExit := 1 }

/-- `demoEnv`, but the target directory already exists. -/
def collideEnv : Env := { demoEnv with pathExists := true }

/-- `demoEnv`, but the clone exits with code 128. -/
def cloneFailEnv : Env := { demoEnv with cloneExit := 128 }

/-- `demoEnv`, but the backend install exits non-zero. -/
def backendFailEnv : Env := { demoEnv with backendInstall := some 1 }

/-- `demoEnv`, but install-now is answered `No`. -/
def skipInstallEnv : Env := { demoEnv with installAnswer := "No" }

/-- `demoEnv`, but the repository-rewrite prompt is declined (empty answer,
the default `no`). -/
def declineEnv : Env := { demoEnv with setupAnswer := "" }

/-- `demoEnv`, but the `.gitmodules` write throws. -/
def throwEnv : Env := { demoEnv with gitmodulesWriteThrows := true }

/-- `demoEnv`, but the commit and all three pushes exit non-zero. -/
def pushFailEnv : Env :=
  { demoEnv with
      commitExit := 1
      backendPushExit := 1
      frontendPushExit := 1
      rootPushExit := 1 }

/-! ### Claims -/

/-- C1 (amended): in the repository-rewrite stage, after writing the
submodule-configuration file and running the sync step, the remote URLs are
rewritten for backend, frontend, and root — in that order, not root first —
followed by staging and committing the configuration change in the root
repository, then pushing backend, frontend, and finally root, each to branch
`main`. -/
theorem C1_rewrite_sequence (e : Env) (h1 : e.pathExists = false)
    (h2 : e.cloneExit = 0) (h3 : setupReposOf e.setupAnswer = true)
    (h4 : e.gitmodulesWriteThrows = false) :
    opsOf (run e).trace =
      GitOp.cloneRepo templateUrl (projectPathOf e) :: rewriteOps e := by
  rw [opsOf_run_success e h1 h2, opsOf_rewriteTrace e]
  simp [h3, h4]

/-- C1, as stated, fails on the code: in a concrete accepted-rewrite session
the `git remote set-url origin` invocations carry the backend, frontend and
root URLs in that order, not the claimed root-backend-frontend order. -/
theorem C1_counterexample :
    setUrlUrls (run demoEnv).trace =
      [demoEnv.backendRepo, demoEnv.frontendRepo, demoEnv.rootRepo] ∧
    [demoEnv.backendRepo, demoEnv.frontendRepo, demoEnv.rootRepo] ≠
      [demoEnv.rootRepo, demoEnv.backendRepo, demoEnv.frontendRepo] :=
  ⟨by decide, by decide⟩

/-- Witness for `C1_rewrite_sequence` at the concrete environment
`demoEnv`. -/
theorem C1_rewrite_sequence_witness :
    demoEnv.pathExists = false ∧ demoEnv.cloneExit = 0 ∧
    setupReposOf demoEnv.setupAnswer = true ∧
    demoEnv.gitmodulesWriteThrows = false ∧
    opsOf (run demoEnv).trace =
      GitOp.cloneRepo templateUrl (projectPathOf demoEnv) :: rewriteOps demoEnv :=
  ⟨rfl, rfl, by decide, rfl, C1_rewrite_sequence demoEnv rfl rfl (by decide) rfl⟩

/-- C2 (amended): every git invocation in the repository-rewrite stage is
best-effort — no exit code terminates the process, the sequence always
proceeds through every remaining operation, and the run exits 0.  However,
only the commit and the three pushes report a non-zero exit (with an
info/warning line); the submodule sync and the three `set-url` operations
print their success message unconditionally, and the `add` operation prints
nothing, so their failures produce no warning. -/
theorem C2_best_effort (e : Env) (h1 : e.pathExists = false)
    (h2 : e.cloneExit = 0) (h3 : setupReposOf e.setupAnswer = true)
    (h4 : e.gitmodulesWriteThrows = false) :
    (run e).exitCode = 0 ∧
    opsOf (run e).trace =
      GitOp.cloneRepo templateUrl (projectPathOf e) :: rewriteOps e ∧
    Event.log "✅ Submodule configurations synced" ∈ (run e).trace ∧
    Event.log "✅ Backend remote updated" ∈ (run e).trace ∧
    Event.log "✅ Frontend remote updated" ∈ (run e).trace ∧
    Event.log "✅ Root remote updated" ∈ (run e).trace ∧
    (e.commitExit ≠ 0 →
      Event.log "ℹ️  No changes to commit (or commit failed)" ∈ (run e).trace) ∧
    (e.backendPushExit ≠ 0 →
      Event.log "⚠️  Backend push had issues (might be up-to-date)" ∈ (run e).trace) ∧
    (e.frontendPushExit ≠ 0 →
      Event.log "⚠️  Frontend push had issues (might be up-to-date)" ∈ (run e).trace) ∧
    (e.rootPushExit ≠ 0 →
      Event.log "⚠️  Root push had issues (might be up-to-date)" ∈ (run e).trace) := by
  refine ⟨by rw [run_success e h1 h2], ?_, ?_, ?_, ?_, ?_, ?_, ?_, ?_, ?_⟩
  · rw [opsOf_run_success e h1 h2, opsOf_rewriteTrace e]
    simp [h3, h4]
  · exact mem_run_of_mem_rewrite e h1 h2 _ (by
      simp [rewriteTrace, h3, h4, rewriteBody, List.mem_append])
  · exact mem_run_of_mem_rewrite e h1 h2 _ (by
      simp [rewriteTrace, h3, h4, rewriteBody, List.mem_append])
  · exact mem_run_of_mem_rewrite e h1 h2 _ (by
      simp [rewriteTrace, h3, h4, rewriteBody, List.mem_append])
  · exact mem_run_of_mem_rewrite e h1 h2 _ (by
      simp [rewriteTrace, h3, h4, rewriteBody, List.mem_append])
  · intro hc
    exact mem_run_of_mem_rewrite e h1 h2 _ (by
      simp [rewriteTrace, h3, h4, rewriteBody, statusNote, hc, List.mem_append])
  · intro hc
    exact mem_run_of_mem_rewrite e h1 h2 _ (by
      simp [rewriteTrace, h3, h4, rewriteBody, statusNote, hc, List.mem_append])
  · intro hc
    exact mem_run_of_mem_rewrite e h1 h2 _ (by
      simp [rewriteTrace, h3, h4, rewriteBody, statusNote, hc, List.mem_append])
  · intro hc
    exact mem_run_of_mem_rewrite e h1 h2 _ (by
      simp [rewriteTrace, h3, h4, rewriteBody, statusNote, hc, List.mem_append])

/-- C2, as stated, fails on the code: in a concrete accepted-rewrite session
in which the submodule sync exits 1, the sync operation runs and the workflow
proceeds and exits 0, but no warning or error line whatsoever is logged — the
non-zero sync exit is ignored (its success message is printed instead). -/
theorem C2_counterexample :
    syncFailEnv.syncExit ≠ 0 ∧
    GitOp.syncSubmodules (some "/home/user/demo") ∈ opsOf (run syncFailEnv).trace ∧
    List.filter isWarnLog (run syncFailEnv).trace = [] ∧
    Event.log "✅ Submodule configurations synced" ∈ (run syncFailEnv).trace ∧
    (run syncFailEnv).exitCode = 0 :=
  ⟨by decide, by decide, by decide, by decide, rfl⟩

/-- Witness for `C2_best_effort` at a concrete environment in which the
commit and every push exit non-zero. -/
theorem C2_best_effort_witness :
    pushFailEnv.pathExists = false ∧ pushFailEnv.cloneExit = 0 ∧
    setupReposOf pushFailEnv.setupAnswer = true ∧
    pushFailEnv.gitmodulesWriteThrows = false ∧
    ((run pushFailEnv).exitCode = 0 ∧
     opsOf (run pushFailEnv).trace =
       GitOp.cloneRepo templateUrl (projectPathOf pushFailEnv) ::
         rewriteOps pushFailEnv ∧
     Event.log "✅ Submodule configurations synced" ∈ (run pushFailEnv).trace ∧
     Event.log "✅ Backend remote updated" ∈ (run pushFailEnv).trace ∧
     Event.log "✅ Frontend remote updated" ∈ (run pushFailEnv).trace ∧
     Event.log "✅ Root remote updated" ∈ (run pushFailEnv).trace ∧
     (pushFailEnv.commitExit ≠ 0 →
       Event.log "ℹ️  No changes to commit (or commit failed)" ∈ (run pushFailEnv).trace) ∧
     (pushFailEnv.backendPushExit ≠ 0 →
       Event.log "⚠️  Backend push had issues (might be up-to-date)" ∈ (run pushFailEnv).trace) ∧
     (pushFailEnv.frontendPushExit ≠ 0 →
       Event.log "⚠️  Frontend push had issues (might be up-to-date)" ∈ (run pushFailEnv).trace) ∧
     (pushFailEnv.rootPushExit ≠ 0 →
       Event.log "⚠️  Root push had issues (might be up-to-date)" ∈ (run pushFailEnv).trace)) :=
  ⟨rfl, rfl, by decide, rfl, C2_best_effort pushFailEnv rfl rfl (by decide) rfl⟩

/-- C3: for every environment whose resolved project path does not already
exist, the workflow reaches the clone stage (the clone spawn is in the
trace); when the resolved path already exists, the workflow logs an error
naming the project, exits with code 1, and spawns no subprocess at all. -/
theorem C3_collision_guard (e : Env) :
    (e.pathExists = false →
      Event.spawn (cloneCmdOf e) none e.cloneExit ∈ (run e).trace) ∧
    (e.pathExists = true →
      (run e).exitCode = 1 ∧
      spawnEvents (run e).trace = [] ∧
      Event.logError ("❌ Directory \"" ++ projectNameOf e ++ "\" already exists!")
        ∈ (run e).trace) := by
  constructor
  · intro h1
    by_cases h2 : e.cloneExit = 0
    · rw [run_success e h1 h2]
      simp [cloneTrace, List.mem_append]
    · rw [run_cloneFail e h1 h2]
      simp [cloneTrace, List.mem_append]
  · intro h
    rw [run_collision e h]
    exact ⟨rfl, rfl, by simp [List.mem_append]⟩

/-- Witness for `C3_collision_guard`: the clone is reached in a fresh
session, and a colliding target terminates with exit 1, no spawns and the
error naming `demo`. -/
theorem C3_collision_guard_witness :
    demoEnv.pathExists = false ∧
    Event.spawn (cloneCmdOf demoEnv) none demoEnv.cloneExit ∈ (run demoEnv).trace ∧
    collideEnv.pathExists = true ∧
    ((run collideEnv).exitCode = 1 ∧
     spawnEvents (run collideEnv).trace = [] ∧
     Event.logError "❌ Directory \"demo\" already exists!" ∈ (run collideEnv).trace) :=
  ⟨rfl, (C3_collision_guard demoEnv).1 rfl, rfl, (C3_collision_guard collideEnv).2 rfl⟩

/-- C4: a non-zero clone exit prints the diagnostic checklist (tool
availability, connectivity, URL reachability), terminates with exit code 1,
and invokes zero install subprocesses. -/
theorem C4_clone_failure (e : Env) (h1 : e.pathExists = false)
    (h2 : e.cloneExit ≠ 0) :
    (run e).exitCode = 1 ∧
    Event.logError "1. Git is installed (run: git --version)" ∈ (run e).trace ∧
    Event.logError "2. You have internet connection" ∈ (run e).trace ∧
    Event.logError "3. Repository URL is accessible" ∈ (run e).trace ∧
    installSpawns (run e).trace = [] := by
  rw [run_cloneFail e h1 h2]
  refine ⟨rfl, by simp [cloneDiagTrace, List.mem_append],
    by simp [cloneDiagTrace, List.mem_append],
    by simp [cloneDiagTrace, List.mem_append], ?_⟩
  simp [installSpawns_append, installSpawns_headerTrace, installSpawns_cloneTrace,
    installSpawns_cloneDiagTrace]

/-- Witness for `C4_clone_failure` at a concrete environment whose clone
exits with code 128. -/
theorem C4_clone_failure_witness :
    cloneFailEnv.pathExists = false ∧ cloneFailEnv.cloneExit = 128 ∧
    ((run cloneFailEnv).exitCode = 1 ∧
     Event.logError "1. Git is installed (run: git --version)" ∈ (run cloneFailEnv).trace ∧
     Event.logError "2. You have internet connection" ∈ (run cloneFailEnv).trace ∧
     Event.logError "3. Repository URL is accessible" ∈ (run cloneFailEnv).trace ∧
     installSpawns (run cloneFailEnv).trace = []) :=
  ⟨rfl, rfl, C4_clone_failure cloneFailEnv rfl (by decide)⟩

/-- C5: when the install stage runs, all three installs are attempted
strictly in the order project root, `back-end/app`, `front-end/my-app` —
regardless of any failure among them, so a failing backend install never
prevents the frontend install — the process still exits 0, and every failure
(non-zero exit or thrown error) is reported with the exact manual remediation
command. -/
theorem C5_installs (e : Env) (h1 : e.pathExists = false) (h2 : e.cloneExit = 0)
    (h3 : shouldInstallOf e.installAnswer = true) :
    installSpawns (run e).trace =
      [(cmdOf e, projectPathOf e), (cmdOf e, backendPathOf e),
       (cmdOf e, frontendPathOf e)] ∧
    (run e).exitCode = 0 ∧
    (∀ c, e.rootInstall = some c → c ≠ 0 →
      Event.logError ("   cd " ++ projectNameOf e ++ " && " ++ cmdOf e ++ " install")
        ∈ (run e).trace) ∧
    (e.rootInstall = none →
      Event.log ("Please run manually: cd " ++ projectNameOf e ++ " && " ++ cmdOf e ++ " install")
        ∈ (run e).trace) ∧
    (∀ c, e.backendInstall = some c → c ≠ 0 →
      Event.logError ("   cd " ++ projectNameOf e ++ "/back-end/app && " ++ cmdOf e ++ " install")
        ∈ (run e).trace) ∧
    (e.backendInstall = none →
      Event.log ("Please run manually: cd " ++ projectNameOf e ++ "/back-end/app && " ++ cmdOf e ++ " install")
        ∈ (run e).trace) ∧
    (∀ c, e.frontendInstall = some c → c ≠ 0 →
      Event.logError ("   cd " ++ projectNameOf e ++ "/front-end/my-app && " ++ cmdOf e ++ " install")
        ∈ (run e).trace) ∧
    (e.frontendInstall = none →
      Event.log ("Please run manually: cd " ++ projectNameOf e ++ "/front-end/my-app && " ++ cmdOf e ++ " install")
        ∈ (run e).trace) := by
  refine ⟨?_, by rw [run_success e h1 h2], ?_, ?_, ?_, ?_, ?_, ?_⟩
  · rw [installSpawns_run_success e h1 h2]; simp [h3]
  · intro c hc hcc
    exact mem_run_of_mem_install e h1 h2 _ (by
      simp [installStageTrace, h3, installBlock, hc, hcc, List.mem_append])
  · intro hc
    exact mem_run_of_mem_install e h1 h2 _ (by
      simp [installStageTrace, h3, installBlock, hc, List.mem_append])
  · intro c hc hcc
    exact mem_run_of_mem_install e h1 h2 _ (by
      simp [installStageTrace, h3, installBlock, hc, hcc, List.mem_append])
  · intro hc
    exact mem_run_of_mem_install e h1 h2 _ (by
      simp [installStageTrace, h3, installBlock, hc, List.mem_append])
  · intro c hc hcc
    exact mem_run_of_mem_install e h1 h2 _ (by
      simp [installStageTrace, h3, installBlock, hc, hcc, List.mem_append])
  · intro hc
    exact mem_run_of_mem_install e h1 h2 _ (by
      simp [installStageTrace, h3, installBlock, hc, List.mem_append])

/-- Witness for `C5_installs` at a concrete environment whose backend
install exits 1: all three installs are still attempted in order, the exit
code is 0, and the backend remediation command is printed. -/
theorem C5_installs_witness :
    shouldInstallOf backendFailEnv.installAnswer = true ∧
    backendFailEnv.backendInstall = some 1 ∧
    installSpawns (run backendFailEnv).trace =
      [("bun", "/home/user/demo"), ("bun", "/home/user/demo/back-end/app"),
       ("bun", "/home/user/demo/front-end/my-app")] ∧
    (run backendFailEnv).exitCode = 0 ∧
    Event.logError "   cd demo/back-end/app && bun install" ∈ (run backendFailEnv).trace := by
  have h := C5_installs backendFailEnv rfl rfl (by decide)
  exact ⟨by decide, rfl, h.1, h.2.1, h.2.2.2.2.1 1 rfl (by decide)⟩

/-- C6: install-now resolution is a pure function of the prompt answer — in
any session reaching the install decision, exactly the answers whose
lowercasing is `"no"` produce zero install spawns, and every other answer
(the empty string included) produces the three install spawns. -/
theorem C6_install_now (e : Env) (h1 : e.pathExists = false)
    (h2 : e.cloneExit = 0) :
    (toLowerStr e.installAnswer = "no" → installSpawns (run e).trace = []) ∧
    (toLowerStr e.installAnswer ≠ "no" →
      installSpawns (run e).trace =
        [(cmdOf e, projectPathOf e), (cmdOf e, backendPathOf e),
         (cmdOf e, frontendPathOf e)]) := by
  have h := installSpawns_run_success e h1 h2
  constructor
  · intro hno
    rw [h]; simp [shouldInstallOf, hno]
  · intro hyes
    rw [h]; simp [shouldInstallOf, hyes]

/-- Witness for `C6_install_now`: the answer `No` skips all installs, the
empty answer runs all three. -/
theorem C6_install_now_witness :
    toLowerStr skipInstallEnv.installAnswer = "no" ∧
    installSpawns (run skipInstallEnv).trace = [] ∧
    toLowerStr demoEnv.installAnswer ≠ "no" ∧
    installSpawns (run demoEnv).trace =
      [(cmdOf demoEnv, projectPathOf demoEnv), (cmdOf demoEnv, backendPathOf demoEnv),
       (cmdOf demoEnv, frontendPathOf demoEnv)] :=
  ⟨rfl, (C6_install_now skipInstallEnv rfl rfl).1 rfl, by decide,
   (C6_install_now demoEnv rfl rfl).2 (by decide)⟩

/-- C7: package-manager selection is a pure function of the menu input —
`"2"` selects npm, `"3"` selects yarn, any other input selects bun — and in
any session that reaches the install stage, all three install spawns use the
selected package manager as their command. -/
theorem C7_pm_selection (s : String) (e : Env) (h1 : e.pathExists = false)
    (h2 : e.cloneExit = 0) (h3 : shouldInstallOf e.installAnswer = true) :
    (s = "2" → selectPackageManager s = "npm") ∧
    (s = "3" → selectPackageManager s = "yarn") ∧
    (s ≠ "2" → s ≠ "3" → selectPackageManager s = "bun") ∧
    cmdOf e = selectPackageManager e.pmAnswer ∧
    installCmds (run e).trace =
      [selectPackageManager e.pmAnswer, selectPackageManager e.pmAnswer,
       selectPackageManager e.pmAnswer] := by
  have hcmd : cmdOf e = selectPackageManager e.pmAnswer := by
    unfold cmdOf selectPackageManager
    by_cases ha : e.pmAnswer = "2" <;> by_cases hb : e.pmAnswer = "3" <;>
      simp [ha, hb]
  refine ⟨fun h => by rw [h]; simp [selectPackageManager],
    fun h => by rw [h]; simp [selectPackageManager],
    fun ha hb => by simp [selectPackageManager, ha, hb], hcmd, ?_⟩
  rw [installCmds, installSpawns_run_success e h1 h2]
  simp [h3, hcmd]

/-- Witness for `C7_pm_selection`: the selection table at `"2"`, `"3"` and a
garbage input, and the three bun install commands of the default session. -/
theorem C7_pm_selection_witness :
    selectPackageManager "2" = "npm" ∧
    selectPackageManager "3" = "yarn" ∧
    selectPackageManager "garbage" = "bun" ∧
    installCmds (run demoEnv).trace = ["bun", "bun", "bun"] := by
  have h2 := C7_pm_selection "2" demoEnv rfl rfl (by decide)
  have h3 := C7_pm_selection "3" demoEnv rfl rfl (by decide)
  have hg := C7_pm_selection "garbage" demoEnv rfl rfl (by decide)
  exact ⟨h2.1 rfl, h3.2.1 rfl, hg.2.2.1 (by decide) (by decide), hg.2.2.2.2⟩

/-- C8: when the repository-rewrite prompt is declined, the only
repository-level operation in the whole trace is the initial clone — zero
remote, sync, commit or push operations — and the workflow prints the closing
message and exits 0. -/
theorem C8_decline_no_git_ops (e : Env) (h1 : e.pathExists = false)
    (h2 : e.cloneExit = 0) (h3 : toLowerStr e.setupAnswer ≠ "yes") :
    opsOf (run e).trace = [GitOp.cloneRepo templateUrl (projectPathOf e)] ∧
    (run e).exitCode = 0 ∧
    Event.log "🚀 Happy coding!\n" ∈ (run e).trace := by
  have hs : setupReposOf e.setupAnswer = false := by simp [setupReposOf, h3]
  refine ⟨?_, by rw [run_success e h1 h2], ?_⟩
  · rw [opsOf_run_success e h1 h2, opsOf_rewriteTrace e]; simp [hs]
  · rw [run_success e h1 h2]; simp [List.mem_append]

/-- Witness for `C8_decline_no_git_ops` at the declined-rewrite session. -/
theorem C8_decline_no_git_ops_witness :
    toLowerStr declineEnv.setupAnswer ≠ "yes" ∧
    (opsOf (run declineEnv).trace =
       [GitOp.cloneRepo templateUrl (projectPathOf declineEnv)] ∧
     (run declineEnv).exitCode = 0 ∧
     Event.log "🚀 Happy coding!\n" ∈ (run declineEnv).trace) :=
  ⟨by decide, C8_decline_no_git_ops declineEnv rfl rfl (by decide)⟩

/-- C9: in the configuration-file rewrite path the `.gitmodules` file written
at the project root carries exactly the source template, and that template is
exactly two submodule stanzas — `back-end/app` with the user-supplied backend
URL and `front-end/my-app` with the user-supplied frontend URL — with
tab-indented `path` and `url` lines, as `specSubmoduleStanza` spells out. -/
theorem C9_gitmodules_content (e : Env) (h1 : e.pathExists = false)
    (h2 : e.cloneExit = 0) (h3 : setupReposOf e.setupAnswer = true)
    (h4 : e.gitmodulesWriteThrows = false) :
    Event.writeFile (joinPath (projectPathOf e) ".gitmodules")
      (gitmodulesContent e.backendRepo e.frontendRepo) ∈ (run e).trace ∧
    gitmodulesContent e.backendRepo e.frontendRepo =
      specSubmoduleStanza "back-end/app" e.backendRepo ++
      specSubmoduleStanza "front-end/my-app" e.frontendRepo :=
  ⟨mem_run_of_mem_rewrite e h1 h2 _ (by
      simp [rewriteTrace, h3, h4, rewriteBody, List.mem_append]),
   gitmodulesContent_eq_stanzas e.backendRepo e.frontendRepo⟩

/-- Witness for `C9_gitmodules_content` at `demoEnv`, with the written
content fully evaluated. -/
theorem C9_gitmodules_content_witness :
    setupReposOf demoEnv.setupAnswer = true ∧
    Event.writeFile "/home/user/demo/.gitmodules"
      "[submodule \"back-end/app\"]\n\tpath = back-end/app\n\turl = https://github.com/user/backend.git\n[submodule \"front-end/my-app\"]\n\tpath = front-end/my-app\n\turl = https://github.com/user/frontend.git\n"
      ∈ (run demoEnv).trace ∧
    gitmodulesContent demoEnv.backendRepo demoEnv.frontendRepo =
      specSubmoduleStanza "back-end/app" demoEnv.backendRepo ++
      specSubmoduleStanza "front-end/my-app" demoEnv.frontendRepo := by
  have h := C9_gitmodules_content demoEnv rfl rfl (by decide) rfl
  exact ⟨by decide, h.1, h.2⟩

/-- C10: the repository-rewrite stage is entered only when the answer,
lowercased, equals `"yes"` (otherwise the clone is the only repository-level
operation); and when it is entered but the `.gitmodules` write throws, the
exception is caught locally — an error message is printed, every remaining
rewrite operation is skipped, and the run still prints the closing message
and exits 0 instead of reaching the top-level handler. -/
theorem C10_rewrite_entry_and_catch (e : Env) (h1 : e.pathExists = false)
    (h2 : e.cloneExit = 0) :
    (toLowerStr e.setupAnswer ≠ "yes" →
      opsOf (run e).trace = [GitOp.cloneRepo templateUrl (projectPathOf e)]) ∧
    (toLowerStr e.setupAnswer = "yes" → e.gitmodulesWriteThrows = true →
      (run e).exitCode = 0 ∧
      opsOf (run e).trace = [GitOp.cloneRepo templateUrl (projectPathOf e)] ∧
      Event.logError "❌ Error updating repositories:" ∈ (run e).trace ∧
      Event.log "\nPlease update repositories manually or check the documentation."
        ∈ (run e).trace ∧
      Event.log "🚀 Happy coding!\n" ∈ (run e).trace) := by
  have hops := opsOf_run_success e h1 h2
  constructor
  · intro hno
    have hs : setupReposOf e.setupAnswer = false := by simp [setupReposOf, hno]
    rw [hops, opsOf_rewriteTrace e]; simp [hs]
  · intro hyes hw
    have hs : setupReposOf e.setupAnswer = true := by simp [setupReposOf, hyes]
    refine ⟨by rw [run_success e h1 h2], ?_, ?_, ?_, ?_⟩
    · rw [hops, opsOf_rewriteTrace e]; simp [hs, hw]
    · exact mem_run_of_mem_rewrite e h1 h2 _ (by simp [rewriteTrace, hs, hw])
    · exact mem_run_of_mem_rewrite e h1 h2 _ (by simp [rewriteTrace, hs, hw])
    · rw [run_success e h1 h2]; simp [List.mem_append]

/-- Witness for `C10_rewrite_entry_and_catch`: the declined session keeps the
clone as the only operation, and the throwing-write session catches the
error, performs no rewrite operation, and exits 0. -/
theorem C10_rewrite_entry_and_catch_witness :
    (toLowerStr declineEnv.setupAnswer ≠ "yes" ∧
     opsOf (run declineEnv).trace =
       [GitOp.cloneRepo templateUrl (projectPathOf declineEnv)]) ∧
    (toLowerStr throwEnv.setupAnswer = "yes" ∧
     throwEnv.gitmodulesWriteThrows = true ∧
     (run throwEnv).exitCode = 0 ∧
     opsOf (run throwEnv).trace =
       [GitOp.cloneRepo templateUrl (projectPathOf throwEnv)] ∧
     Event.logError "❌ Error updating repositories:" ∈ (run throwEnv).trace) := by
  have hthrow := (C10_rewrite_entry_and_catch throwEnv rfl rfl).2 (by decide) rfl
  exact ⟨⟨by decide, (C10_rewrite_entry_and_catch declineEnv rfl rfl).1 (by decide)⟩,
    ⟨by decide, rfl, hthrow.1, hthrow.2.1, hthrow.2.2.1⟩⟩

end CreateNextElysia
